import Mathlib

/-!
# Verification of the react-plot layout and coordinate-mapping core

Shallow embedding of the plot orchestrator, series registry, line-series
rendering, axis rendering and annotation position resolution of the
react-plot repository, together with proofs about the spec's claims.

Rendering (JSX trees, d3 side effects) is modelled as pure data: each
component's render function becomes a Lean function from its props and
context to a value describing the produced output.
-/

set_option autoImplicit false

namespace ReactPlot

/-! ## Data model (spec §3, source `contexts/plotContext` via `Plot`) -/

/-- A registered series descriptor, as dispatched by `LineSeries`:
`{ id, xMin, xMax, yMin, yMax, label }`.  Extents are `Option` because the
d3 `extent` of an empty array is `[undefined, undefined]`. -/
structure SeriesDescriptor where
  id : String
  xMin : Option Int
  xMax : Option Int
  yMin : Option Int
  yMax : Option Int
  label : String
  deriving DecidableEq, Repr

/-- The plot state held by the `Plot` orchestrator's reducer.  Fields mirror
the source's `initialState`: `headingPosition`, `legendPosition`,
`legendMargin`, `series`, `axes`. -/
structure PlotState where
  headingPosition : Option String
  legendPosition : Option String
  legendMargin : Int
  series : List SeriesDescriptor
  axes : List (String × String)
  deriving DecidableEq, Repr

/-- The source's `initialState` for the `Plot` reducer. -/
def initialState : PlotState :=
  { headingPosition := none
  , legendPosition := none
  , legendMargin := 0
  , series := []
  , axes := [] }

/-- Registry actions used by series components: `newData` and `removeData`. -/
inductive PlotAction where
  | newData (value : SeriesDescriptor)
  | removeData (id : String)
  deriving DecidableEq, Repr

/-- Modelled from the spec: `plotReducer` lives in `contexts/plotContext`,
which is not part of the available sources.  Spec §4.1: `newData` upserts by
`id` (replace extents/label if `id` already present, else append, preserving
insertion order for ids not previously seen); `removeData` deletes by `id`,
and removing a nonexistent id is a no-op.  The state transition is a pure
function producing a new state value. -/
def plotReducer (s : PlotState) (a : PlotAction) : PlotState :=
  match a with
  | .newData v =>
      if s.series.any (fun d => d.id == v.id) then
        { s with series := s.series.map (fun d => if d.id == v.id then v else d) }
      else
        { s with series := s.series ++ [v] }
  | .removeData delId =>
      { s with series := s.series.filter (fun d => d.id != delId) }

/-! ## d3-array `extent` and the `LineSeries` registration effect
(source `components/LineSeries.tsx`) -/

/-- One step of d3-array's `extent` scan: fold the next value into the
running minimum and maximum, starting them at the first value seen. -/
def extentStep (acc : Option Int × Option Int) (v : Int) :
    Option Int × Option Int :=
  match acc with
  | (some mn, some mx) => (some (min mn v), some (max mx v))
  | _ => (some v, some v)

/-- Model of d3-array's `extent`: a single pass keeping the running minimum
and maximum; `(none, none)` for an empty array. -/
def extent (xs : List Int) : Option Int × Option Int :=
  xs.foldl extentStep (none, none)

/-- The descriptor dispatched by `LineSeries`'s effect:
`{ id, xMin, xMax, yMin, yMax, label }` with the extents of `data.x` and
`data.y`. -/
def lineSeriesDescriptor (id label : String) (dataX dataY : List Int) :
    SeriesDescriptor :=
  let ex := extent dataX
  let ey := extent dataY
  { id := id, xMin := ex.1, xMax := ex.2, yMin := ey.1, yMax := ey.2
  , label := label }

/-! ## `LineSeriesRender` (source `components/LineSeries.tsx`) -/

/-- The `data` prop of a series: parallel arrays of x and y values. -/
structure SeriesData where
  x : List Int
  y : List Int
  deriving DecidableEq, Repr

/-- The memoized path computation of `LineSeriesRender`: `null` when either
scale is `null` or when `data.x.length !== data.y.length`; otherwise the list
of scaled points handed to the d3 line generator. -/
def lineSeriesPath (xScale yScale : Option (Int → Int)) (data : SeriesData) :
    Option (List (Int × Int)) :=
  match xScale, yScale with
  | some fx, some fy =>
      if data.x.length ≠ data.y.length then none
      else some (List.zipWith (fun a b => (fx a, fy b)) data.x data.y)
  | _, _ => none

/-- What `LineSeriesRender` returns: `nothing` models returning `null`
(no element at all); `path d stroke` models the `<path style={stroke} d={d}>`
element, whose `d` attribute may itself be null. -/
inductive LineSeriesOutput where
  | nothing
  | path (d : Option (List (Int × Int))) (stroke : String)
  deriving DecidableEq, Repr

/-- `LineSeriesRender`: computes the memoized path, returns `null` when a
scale is missing, otherwise a `<path>` styled with `colorScaler(label)`. -/
def LineSeriesRender (xScale yScale : Option (Int → Int)) (data : SeriesData)
    (colorScaler : String → String) (label : String) : LineSeriesOutput :=
  let path := lineSeriesPath xScale yScale data
  if xScale.isNone ∨ yScale.isNone then .nothing
  else .path path (colorScaler label)

/-! ## `Plot`'s mandatory size check (source `components/.../Plot`) -/

/-- The guard at the top of `Plot`'s render:
`if (width === undefined) throw new Error('width is mandatory')` and the
analogous check for `height`.  `none` models an `undefined` prop. -/
def checkMandatorySize (width height : Option Int) : Except String Unit :=
  if width.isNone then .error "width is mandatory"
  else if height.isNone then .error "height is mandatory"
  else .ok ()

/-! ## d3-scale `scaleOrdinal` and the color assignment of `Plot`
(source `components/.../Plot` and `components/LineSeries.tsx`) -/

/-- Model of d3-scale's `scaleOrdinal` with the default implicit handling of
unknown values: a known key maps to `range[index % range.length]` where
`index` is its position in the domain; an unknown key is appended to the
(growing) domain and mapped from its new position.  One lookup returns the
color and the updated internal domain. -/
def scaleOrdinalStep (range domain : List String) (key : String) :
    String × List String :=
  match domain.findIdx? (fun d => d == key) with
  | some i => (range.getD (i % range.length) "", domain)
  | none => (range.getD (domain.length % range.length) "", domain ++ [key])

/-- A sequence of `scaleOrdinal` lookups on one scaler instance, threading the
internal domain through the queries. -/
def scaleOrdinalRun (range : List String) :
    List String → List String → List String
  | _, [] => []
  | domain, k :: ks =>
      let step := scaleOrdinalStep range domain k
      step.1 :: scaleOrdinalRun range step.2 ks

/-- One render cycle's color assignment: `Plot` builds
`scaleOrdinal().range(colorScheme).domain(ids)` with
`ids = state.series.map(({id}) => id)`, and each `LineSeriesRender`, in
registration order, queries `colorScaler(label)`. -/
def seriesColors (colorScheme : List String) (state : PlotState) :
    List String :=
  scaleOrdinalRun colorScheme (state.series.map (fun d => d.id))
    (state.series.map (fun d => d.label))

/-! ## Position resolution for annotations (spec §4.5) -/

/-- An annotation coordinate: a bare number or a string. -/
inductive ScalarValue where
  | num (v : ℚ)
  | str (s : String)
  deriving DecidableEq, Repr

/-- Digit-by-digit accumulator for parsing a nonnegative decimal numeral;
any non-digit character makes the whole parse fail. -/
def parseDigitsAux : Option Nat → List Char → Option Nat
  | acc, [] => acc
  | some n, c :: cs =>
      if c.isDigit then parseDigitsAux (some (n * 10 + (c.toNat - '0'.toNat))) cs
      else none
  | none, _ :: _ => none

/-- Parses a nonempty all-digit character list into a natural number. -/
def parseNatChars (cs : List Char) : Option Nat :=
  match cs with
  | [] => none
  | _ => parseDigitsAux (some 0) cs

/-- Parses an optional leading minus sign followed by a decimal numeral. -/
def parseIntChars (cs : List Char) : Option Int :=
  match cs with
  | '-' :: rest => (parseNatChars rest).map (fun n => -(n : Int))
  | _ => (parseNatChars cs).map (fun n => (n : Int))

/-- Modelled from the spec: the `usePosition` hook backing annotation
coordinates is not part of the available sources.  Spec §4.5: a bare number
is already a final pixel offset; a numeric string suffixed with `%` is a
percentage of the relevant plot-area dimension, applied relative to the plot
origin and resolved first by pattern match; otherwise a bare numeric string
goes through the bound axis's scale when one is available, else falls back
to numeric pixel interpretation.  Unparseable strings resolve to 0.
Numeric strings are modelled as integer literals, parsed over the string's
character list. -/
def resolveScalar (value : ScalarValue) (plotDim : ℚ)
    (scale : Option (ℚ → ℚ)) : ℚ :=
  match value with
  | .num v => v
  | .str s =>
      if s.data.getLast? = some '%' then
        match parseIntChars s.data.dropLast with
        | some p => (p : ℚ) / 100 * plotDim
        | none => 0
      else
        match parseIntChars s.data with
        | some v =>
            match scale with
            | some f => f (v : ℚ)
            | none => (v : ℚ)
        | none => 0

/-- Modelled from the spec: the point-annotation variant of the resolver,
`resolve({x, y, ...}) -> {x: pixel, y: pixel}`, resolving x against the plot
width and x scale and y against the plot height and y scale. -/
def usePosition (x y : ScalarValue) (plotWidth plotHeight : ℚ)
    (xScale yScale : Option (ℚ → ℚ)) : ℚ × ℚ :=
  (resolveScalar x plotWidth xScale, resolveScalar y plotHeight yScale)

/-! ## Linear scale construction (spec §4.3) -/

/-- Modelled from the spec: the Scale Resolver's linear scale is not part of
the available sources.  Spec §4.3: standard affine interpolation
`f(v) = rangeStart + (v - domainMin) / (domainMax - domainMin) *
(rangeEnd - rangeStart)`; a degenerate domain (`min == max`) must map every
value to the midpoint of the pixel range instead of dividing by zero, i.e.
the interpolation parameter is `1/2` when the domain has zero span. -/
def scaleLinear (domainMin domainMax rangeStart rangeEnd v : ℚ) : ℚ :=
  let t : ℚ :=
    if domainMax - domainMin = 0 then 1 / 2
    else (v - domainMin) / (domainMax - domainMin)
  rangeStart + t * (rangeEnd - rangeStart)

/-! ## `XAxis` (source `components/XAxis.tsx`) -/

/-- The visual output of `XAxis`, as data: the y translation of the axis
group `translate(0, height - margin.bottom)`, the grid-line tick size when
`showGridLines` is set, the tick text y shift, and the optional label with
its anchor position and font size. -/
structure XAxisElement where
  axisGroupY : Int
  tickSizeInner : Option Int
  tickTextShift : Int
  label : Option (Int × Int × Int)
  deriving DecidableEq, Repr

/-- What one render of `XAxis` produces: a console warning (when the left
margin is below `fontSize + 20`) and the rendered element. -/
structure XAxisOutput where
  warning : Option String
  element : XAxisElement
  deriving DecidableEq, Repr

/-- `XAxis`: warns `Your margin left should be at least ${fontSize + 20}`
when `(margin?.left || 0) < fontSize + 20`, and renders the axis group at
`height - (margin?.bottom || 0)` with the label (when present) at
`(width / 2, height - (margin?.bottom || 0) + 20 + fontSize)`.  The d3
`axisBottom` side effects are summarized by the tick fields. -/
def XAxisRender (marginLeft marginBottom marginTop : Option Int)
    (fontSize : Int) (height width : Int) (showGridLines : Bool)
    (label : Option String) : XAxisOutput :=
  { warning :=
      if marginLeft.getD 0 < fontSize + 20 then
        some ("Your margin left should be at least " ++ toString (fontSize + 20))
      else none
  , element :=
      { axisGroupY := height - marginBottom.getD 0
      , tickSizeInner :=
          if showGridLines then
            some (marginBottom.getD 0 + marginTop.getD 0 - height)
          else none
      , tickTextShift := if showGridLines then 6 else 0
      , label :=
          label.map (fun _ =>
            (width / 2, height - marginBottom.getD 0 + 20 + fontSize, fontSize)) } }

/-! ## The SVG tree produced by `Plot`
(source `components/.../Plot`, return statement) -/

/-- Structural roles of `Plot`'s children, as produced by `splitChildren`
plus the internal tracking layer. -/
inductive ChildRole where
  | seriesAndAnnotations
  | topAxis
  | rightAxis
  | bottomAxis
  | leftAxis
  | legend
  | heading
  | tracking
  deriving DecidableEq, Repr

/-- An abstraction of the SVG tree: groups, a translated group, the
`clipPath` definition (a rect of the given size at the local origin), a
group whose style applies the clip path, transparent rects, and slots where
the split children are inserted. -/
inductive SvgNode where
  | rect (w h : Int)
  | clipPathDef (w h : Int)
  | slot (role : ChildRole)
  | g (children : List SvgNode)
  | translate (dx dy : Int) (children : List SvgNode)
  | clipped (children : List SvgNode)

/-- The SVG tree returned by `Plot`, transcribed from the JSX: the plot
viewport rect; a group translated by `(leftOffset, topOffset)` containing
the series viewport rect, the clip-path definition of size
`plotWidth × plotHeight`, the clipped group holding series and annotations,
the four axis groups, the legend group and (when plot events are registered)
the tracking layer; and the heading group outside the translated group. -/
def plotSvg (width height plotWidth plotHeight leftOffset topOffset : Int)
    (hasPlotEvents : Bool) : SvgNode :=
  .g
    [ .rect width height
    , .translate leftOffset topOffset
        ([ .rect plotWidth plotHeight
         , .clipPathDef plotWidth plotHeight
         , .clipped [.slot .seriesAndAnnotations]
         , .g [.slot .topAxis]
         , .g [.slot .rightAxis]
         , .g [.slot .bottomAxis]
         , .g [.slot .leftAxis]
         , .g [.slot .legend]
         ] ++ (if hasPlotEvents then [.slot .tracking] else []))
    , .g [.slot .heading]
    ]

mutual

/-- Collects every child slot of a node together with whether it sits inside
a clip-applying group; the Boolean argument records whether an enclosing
group is clipped. -/
def collectNode : Bool → SvgNode → List (ChildRole × Bool)
  | _, .rect _ _ => []
  | _, .clipPathDef _ _ => []
  | b, .slot r => [(r, b)]
  | b, .g cs => collectList b cs
  | b, .translate _ _ cs => collectList b cs
  | _, .clipped cs => collectList true cs

/-- `collectNode` over a list of sibling nodes. -/
def collectList : Bool → List SvgNode → List (ChildRole × Bool)
  | _, [] => []
  | b, c :: cs => collectNode b c ++ collectList b cs

end

mutual

/-- Collects the sizes of all clip-path definition rects in a node. -/
def clipRectsNode : SvgNode → List (Int × Int)
  | .rect _ _ => []
  | .clipPathDef w h => [(w, h)]
  | .slot _ => []
  | .g cs => clipRectsList cs
  | .translate _ _ cs => clipRectsList cs
  | .clipped cs => clipRectsList cs

/-- `clipRectsNode` over a list of sibling nodes. -/
def clipRectsList : List SvgNode → List (Int × Int)
  | [] => []
  | c :: cs => clipRectsNode c ++ clipRectsList cs

end

/-! ## Helper lemmas -/

/-- Once the extent scan has seen a first value, it folds plain `min`/`max`
over the rest of the list. -/
theorem extent_loop (xs : List Int) : ∀ (mn mx : Int),
    xs.foldl extentStep (some mn, some mx) =
      (some (xs.foldl min mn), some (xs.foldl max mx)) := by
  induction xs with
  | nil => intro mn mx; rfl
  | cons x t ih =>
      intro mn mx
      simpa [extentStep, List.foldl] using ih (min mn x) (max mx x)

/-- The d3 `extent` scan computes exactly the list minimum and maximum,
`none` on the empty list. -/
theorem extent_eq_minmax (xs : List Int) : extent xs = (xs.min?, xs.max?) := by
  cases xs with
  | nil => rfl
  | cons x t =>
      simpa [extent, extentStep, List.min?, List.max?, List.foldl] using
        extent_loop t x x

/-- The upsert map of `plotReducer`'s `newData` branch keeps the new
descriptor in the list whenever some entry already carries its id. -/
theorem mem_upsert (l : List SeriesDescriptor) (v : SeriesDescriptor)
    (h : l.any (fun d => d.id == v.id) = true) :
    v ∈ l.map (fun d => if d.id == v.id then v else d) := by
  induction l with
  | nil => simp at h
  | cons a t ih =>
      by_cases ha : a.id == v.id
      · rw [List.map_cons, if_pos ha]
        exact List.mem_cons_self _ _
      · simp only [List.any_cons, Bool.or_eq_true] at h
        rcases h with h | h
        · exact absurd h ha
        · simp only [List.map_cons]
          exact List.mem_cons_of_mem _ (ih h)

/-- Dispatching `newData v` always leaves `v` registered, whether the id was
fresh (append) or already present (replace). -/
theorem upsert_mem_reducer (s : PlotState) (v : SeriesDescriptor) :
    v ∈ (plotReducer s (.newData v)).series := by
  unfold plotReducer
  by_cases h : s.series.any (fun d => d.id == v.id)
  · simp only [h, if_true]
    exact mem_upsert s.series v h
  · simp only [h, if_false]
    simp

/-- After dispatching `removeData id`, no registered descriptor carries that
id. -/
theorem remove_removes (s : PlotState) (delId : String) :
    (plotReducer s (.removeData delId)).series.all
      (fun e => e.id != delId) = true := by
  rw [List.all_eq_true]
  intro e he
  exact (List.mem_filter.mp he).2

/-- `newData` with an id not yet registered appends the descriptor. -/
theorem newData_fresh_appends (s : PlotState) (v : SeriesDescriptor)
    (hfresh : s.series.all (fun d => d.id != v.id) = true) :
    plotReducer s (.newData v) = { s with series := s.series ++ [v] } := by
  have hany : s.series.any (fun d => d.id == v.id) = false := by
    rw [Bool.eq_false_iff]
    intro hc
    rcases List.any_eq_true.mp hc with ⟨d, hd, hdid⟩
    have := List.all_eq_true.mp hfresh d hd
    simp [bne] at this
    exact absurd (beq_iff_eq.mp hdid) this
  simp [plotReducer, hany]

/-- A `scaleOrdinal` lookup of a key not in the internal domain appends the
key and returns the next palette slot. -/
theorem scaleOrdinalStep_fresh (range d : List String) (k : String)
    (hk : k ∉ d) :
    scaleOrdinalStep range d k =
      (range.getD (d.length % range.length) "", d ++ [k]) := by
  unfold scaleOrdinalStep
  have : d.findIdx? (fun x => x == k) = none := by
    rw [List.findIdx?_eq_none_iff]
    intro x hx
    simp only [beq_eq_false_iff_ne, ne_eq]
    intro hxk
    exact hk (hxk ▸ hx)
  rw [this]

/-- Querying a `scaleOrdinal` with a sequence of pairwise-distinct keys none
of which is in the domain assigns palette slots positionally, starting right
after the domain. -/
theorem scaleOrdinalRun_fresh (range : List String) (ks : List String) :
    ∀ (d : List String), ks.Nodup → (∀ k ∈ ks, k ∉ d) →
    scaleOrdinalRun range d ks =
      (List.range ks.length).map
        (fun i => range.getD ((d.length + i) % range.length) "") := by
  induction ks with
  | nil => intro d _ _; rfl
  | cons k t ih =>
      intro d hnd hdisj
      rw [List.nodup_cons] at hnd
      have hk : k ∉ d := hdisj k (List.mem_cons_self _ _)
      unfold scaleOrdinalRun
      rw [scaleOrdinalStep_fresh range d k hk]
      simp only
      have ht : ∀ k' ∈ t, k' ∉ d ++ [k] := by
        intro k' hk' hmem
        rcases List.mem_append.mp hmem with hm | hm
        · exact hdisj k' (List.mem_cons_of_mem _ hk') hm
        · rcases List.mem_singleton.mp hm with rfl
          exact hnd.1 hk'
      rw [ih (d ++ [k]) hnd.2 ht]
      rw [List.length_cons, List.range_succ_eq_map]
      have harg : ∀ i : ℕ, d.length + 1 + i = d.length + (i + 1) := by
        intro i
        omega
      simp only [List.map_cons, List.map_map, List.length_append,
        List.length_singleton, Function.comp_def, Nat.succ_eq_add_one,
        Nat.add_zero, harg]

/-! ## Claims -/

/-- C1, counterexample: `Plot` accepts a provided but non-positive width
without throwing — `checkMandatorySize (some 0) (some 300)` succeeds even
though `0` is not positive, so absence is the only condition that throws. -/
theorem plot_size_check_accepts_nonpositive :
    checkMandatorySize (some 0) (some 300) = Except.ok () ∧ ¬((0 : Int) > 0) :=
  ⟨rfl, by decide⟩

/-- C1 (amended): outer width and height must be provided; when either is
`undefined` the orchestrator throws a fatal configuration error immediately
(`width is mandatory` / `height is mandatory`, width checked first), and any
provided pair of values — positive or not — is accepted. -/
theorem plot_size_check_requires_presence_only (w hgt : Int) :
    checkMandatorySize (some w) (some hgt) = Except.ok () ∧
    checkMandatorySize none (some hgt) = Except.error "width is mandatory" ∧
    checkMandatorySize (some w) none = Except.error "height is mandatory" ∧
    checkMandatorySize none none = Except.error "width is mandatory" :=
  ⟨rfl, rfl, rfl, rfl⟩

/-- C2, counterexample: with both scales present and data `x = [0, 1]`,
`y = [0]` of mismatched lengths, `LineSeriesRender` raises nothing and still
returns a `<path>` element whose path data is null — the mismatch is
swallowed, not surfaced. -/
theorem mismatched_series_no_error :
    LineSeriesRender (some (fun v => v)) (some (fun v => v)) ⟨[0, 1], [0]⟩
      (fun _ => "red") "A" = .path none "red" := by
  decide

/-- C2 (amended): for every series whose x and y data arrays have mismatched
lengths, the memoized path computation yields null and the series renders an
empty path element; no error is thrown and nothing is surfaced to the
caller. -/
theorem mismatched_series_renders_empty_path (fx fy : Int → Int)
    (cs : String → String) (lab : String) (data : SeriesData)
    (hmm : data.x.length ≠ data.y.length) :
    LineSeriesRender (some fx) (some fy) data cs lab = .path none (cs lab) := by
  unfold LineSeriesRender lineSeriesPath
  simp [hmm]

/-- Witness for C2 (amended) at data `x = [0, 1]`, `y = [5]`. -/
theorem mismatched_series_renders_empty_path_witness :
    LineSeriesRender (some (fun v => v + 1)) (some (fun v => 2 * v))
      ⟨[0, 1], [5]⟩ (fun _ => "red") "A" = .path none "red" :=
  mismatched_series_renders_empty_path _ _ _ _ _ (by decide)

/-- C3, counterexample: colors are not stable under removal of unrelated
series.  With palette `[c0, c1, c2, c3]`, after registering `series-1`
(label `A`) and `series-2` (label `B`) the render queries assign `A ↦ c2`
and `B ↦ c3`; after removing only `series-1`, `series-2`'s label `B` is
assigned `c1`.  The second series' color changed even though only an
unrelated series was removed, and the assignment keys on the queried label,
not on a first-seen id mapping. -/
theorem color_changes_when_unrelated_series_removed :
    seriesColors ["c0", "c1", "c2", "c3"]
        (plotReducer
          (plotReducer initialState
            (.newData ⟨"series-1", none, none, none, none, "A"⟩))
          (.newData ⟨"series-2", none, none, none, none, "B"⟩)) =
      ["c2", "c3"] ∧
    seriesColors ["c0", "c1", "c2", "c3"]
        (plotReducer
          (plotReducer
            (plotReducer initialState
              (.newData ⟨"series-1", none, none, none, none, "A"⟩))
            (.newData ⟨"series-2", none, none, none, none, "B"⟩))
          (.removeData "series-1")) =
      ["c1"] := by
  decide

/-- C3 (amended): the `Plot` color scaler's domain is the current series ids
in registration order, but each series queries it with its label; a label
distinct from every id is appended to the ordinal scale's domain, so the
i-th series (0-based, in registration order) receives palette index
`(number of series + i) mod palette size`.  The scaler is rebuilt whenever
the id list changes, so the assignment depends on the current registration
list, not on first-seen order. -/
theorem series_color_by_position (scheme : List String) (st : PlotState)
    (hnodup : (st.series.map (fun d => d.label)).Nodup)
    (hdisj : ∀ lab ∈ st.series.map (fun d => d.label),
      lab ∉ st.series.map (fun d => d.id)) :
    seriesColors scheme st =
      (List.range st.series.length).map
        (fun i => scheme.getD ((st.series.length + i) % scheme.length) "") := by
  unfold seriesColors
  rw [scaleOrdinalRun_fresh scheme (st.series.map (fun d => d.label))
    (st.series.map (fun d => d.id)) hnodup hdisj]
  simp [List.length_map]

/-- Witness for C3 (amended) at a two-series state with labels `A`, `B` and
palette of four colors. -/
theorem series_color_by_position_witness :
    seriesColors ["c0", "c1", "c2", "c3"]
        ⟨none, none, 0,
          [⟨"series-1", none, none, none, none, "A"⟩,
           ⟨"series-2", none, none, none, none, "B"⟩], []⟩ =
      (List.range 2).map
        (fun i => (["c0", "c1", "c2", "c3"] : List String).getD ((2 + i) % 4) "") :=
  series_color_by_position _ _ (by decide) (by decide)

/-- C4: the descriptor a `LineSeries` dispatches on mount (and on every
data/label change) carries as `xMin`/`xMax`/`yMin`/`yMax` exactly the
componentwise minimum and maximum of `data.x` and `data.y` (`none` when the
data is empty, since `List.min?`/`List.max?` of `[]` is `none`); dispatching
it leaves the descriptor registered, and the `removeData` dispatched on
unmount leaves no descriptor under its id. -/
theorem lineSeries_descriptor_and_unregister (sid lab : String)
    (xs ys : List Int) (s : PlotState) :
    (lineSeriesDescriptor sid lab xs ys).xMin = xs.min? ∧
    (lineSeriesDescriptor sid lab xs ys).xMax = xs.max? ∧
    (lineSeriesDescriptor sid lab xs ys).yMin = ys.min? ∧
    (lineSeriesDescriptor sid lab xs ys).yMax = ys.max? ∧
    lineSeriesDescriptor sid lab xs ys ∈
      (plotReducer s (.newData (lineSeriesDescriptor sid lab xs ys))).series ∧
    (plotReducer s (.removeData sid)).series.all
      (fun e => e.id != sid) = true := by
  refine ⟨?_, ?_, ?_, ?_, upsert_mem_reducer s _, remove_removes s sid⟩
  · simp [lineSeriesDescriptor, extent_eq_minmax]
  · simp [lineSeriesDescriptor, extent_eq_minmax]
  · simp [lineSeriesDescriptor, extent_eq_minmax]
  · simp [lineSeriesDescriptor, extent_eq_minmax]

/-- C5: a percentage-suffixed numeric string resolves to that fraction of
the relevant plot-area dimension regardless of whether an axis scale is
present (the percentage branch never consults the scale), and a bare number
such as `120` resolves to the same pixel value unchanged. -/
theorem annotation_position_resolution (s : String) (p : Int) (dim : ℚ)
    (scale : Option (ℚ → ℚ)) (hpct : s.data.getLast? = some '%')
    (hparse : parseIntChars s.data.dropLast = some p) :
    resolveScalar (.str s) dim scale = (p : ℚ) / 100 * dim ∧
    resolveScalar (.num 120) dim scale = 120 := by
  constructor
  · simp only [resolveScalar]
    rw [if_pos hpct, hparse]
  · rfl

/-- Witness for C5: `"50%"` with plot dimension 400 resolves to pixel 200
both with and without an axis scale, and the bare number 120 resolves to
pixel 120. -/
theorem annotation_position_resolution_witness :
    resolveScalar (.str "50%") 400 (some (fun v => v + 1000)) = 200 ∧
    resolveScalar (.str "50%") 400 none = 200 ∧
    resolveScalar (.num 120) 400 none = 120 := by
  obtain ⟨h1, _⟩ :=
    annotation_position_resolution "50%" 50 400 (some (fun v => v + 1000))
      (by decide) (by decide)
  obtain ⟨h3, h4⟩ :=
    annotation_position_resolution "50%" 50 400 none (by decide) (by decide)
  refine ⟨?_, ?_, h4⟩
  · rw [h1]; norm_num
  · rw [h3]; norm_num

/-- C6: a linear scale built from a degenerate domain (`min = max`) maps
every input value to the midpoint of the pixel range; the interpolation
parameter is taken to be `1/2` instead of dividing by the zero domain
span. -/
theorem linear_scale_degenerate_midpoint (dmin dmax rs re v : ℚ)
    (hdeg : dmin = dmax) :
    scaleLinear dmin dmax rs re v = (rs + re) / 2 := by
  subst hdeg
  unfold scaleLinear
  simp
  ring

/-- Witness for C6: the degenerate domain `[5, 5]` over pixel range
`[10, 20]` maps the arbitrary input 7 to the midpoint 15. -/
theorem linear_scale_degenerate_midpoint_witness :
    scaleLinear 5 5 10 20 7 = 15 := by
  have h := linear_scale_degenerate_midpoint 5 5 10 20 7 rfl
  rw [h]
  norm_num

/-- C7: when the configured left margin is below `fontSize + 20`, `XAxis`
surfaces the developer-facing console warning and still renders exactly the
element it would render with a sufficient margin — the warning never blocks
rendering. -/
theorem insufficient_margin_warns_and_renders (ml mb mt : Option Int)
    (fs hgt wdt : Int) (grid : Bool) (lab : Option String)
    (hins : ml.getD 0 < fs + 20) :
    (XAxisRender ml mb mt fs hgt wdt grid lab).warning =
      some ("Your margin left should be at least " ++ toString (fs + 20)) ∧
    (XAxisRender ml mb mt fs hgt wdt grid lab).element =
      (XAxisRender (some (fs + 20)) mb mt fs hgt wdt grid lab).element := by
  constructor
  · simp [XAxisRender, hins]
  · rfl

/-- Witness for C7: an absent left margin with font size 16 warns and
renders the same element as a margin of 36. -/
theorem insufficient_margin_warns_and_renders_witness :
    (XAxisRender none (some 10) none 16 300 500 false none).warning =
      some ("Your margin left should be at least " ++ toString ((16 : Int) + 20)) ∧
    (XAxisRender none (some 10) none 16 300 500 false none).element =
      (XAxisRender (some 36) (some 10) none 16 300 500 false none).element :=
  insufficient_margin_warns_and_renders none (some 10) none 16 300 500 false
    none (by decide)

/-- C8: the reducer is a pure state-transition function — the previous state
value is never modified — and every structural update (registering a series
under a fresh id, or removing a registered id) produces a state value
distinct from the previous one, so consumers can rely on identity change to
detect structural updates. -/
theorem registry_structural_update_changes_value (s : PlotState)
    (v : SeriesDescriptor) (delId : String)
    (hfresh : s.series.all (fun d => d.id != v.id) = true)
    (hpresent : s.series.any (fun d => d.id == delId) = true) :
    plotReducer s (.newData v) ≠ s ∧ plotReducer s (.removeData delId) ≠ s := by
  constructor
  · intro heq
    have hlen := congrArg (fun st => st.series.length) heq
    rw [newData_fresh_appends s v hfresh] at hlen
    simp at hlen
  · intro heq
    have hlen := congrArg (fun st => st.series.length) heq
    have hlt : ((s.series.filter (fun d => d.id != delId)).length <
        s.series.length) := by
      rw [List.length_filter_lt_length_iff_exists]
      rcases List.any_eq_true.mp hpresent with ⟨d, hd, hdid⟩
      exact ⟨d, hd, by simp [bne, beq_iff_eq.mp hdid]⟩
    unfold plotReducer at hlen
    simp only at hlen
    omega

/-- Witness for C8 at a one-series state: adding a fresh series and removing
the registered one both change the state value. -/
theorem registry_structural_update_changes_value_witness :
    plotReducer
        ⟨none, none, 0, [⟨"series-1", none, none, none, none, "A"⟩], []⟩
        (.newData ⟨"series-2", none, none, none, none, "B"⟩) ≠
      ⟨none, none, 0, [⟨"series-1", none, none, none, none, "A"⟩], []⟩ ∧
    plotReducer
        ⟨none, none, 0, [⟨"series-1", none, none, none, none, "A"⟩], []⟩
        (.removeData "series-1") ≠
      ⟨none, none, 0, [⟨"series-1", none, none, none, none, "A"⟩], []⟩ :=
  registry_structural_update_changes_value _ _ _ (by decide) (by decide)

/-- C9: whenever the x scale or the y scale is absent (`null`),
`LineSeriesRender` returns `null` before producing any path element; the
embedding is a total function, so no exception occurs. -/
theorem missing_scale_renders_nothing (xScale yScale : Option (Int → Int))
    (data : SeriesData) (cs : String → String) (lab : String)
    (hnull : xScale = none ∨ yScale = none) :
    LineSeriesRender xScale yScale data cs lab = .nothing := by
  rcases hnull with rfl | rfl
  · rfl
  · cases xScale <;> rfl

/-- Witness for C9: a series with data but no x scale renders nothing. -/
theorem missing_scale_renders_nothing_witness :
    LineSeriesRender none (some (fun v => v)) ⟨[1], [2]⟩ (fun _ => "red") "A" =
      .nothing :=
  missing_scale_renders_nothing _ _ _ _ _ (Or.inl rfl)

/-- C10: in every render cycle the series-and-annotations slot is the only
content placed inside a clip-applying group, the sole clip-path definition
is a rect of exactly `plotWidth × plotHeight` at the origin of the
plot-area group, and the four axes, the legend, the tracking layer and the
heading all sit outside the clipped group. -/
theorem series_and_annotations_clipped (w hgt pw ph lo toff : Int)
    (ev : Bool) :
    collectNode false (plotSvg w hgt pw ph lo toff ev) =
      [(.seriesAndAnnotations, true), (.topAxis, false), (.rightAxis, false),
       (.bottomAxis, false), (.leftAxis, false), (.legend, false)] ++
      (if ev then [(.tracking, false)] else []) ++ [(.heading, false)] ∧
    clipRectsNode (plotSvg w hgt pw ph lo toff ev) = [(pw, ph)] := by
  cases ev <;> exact ⟨rfl, rfl⟩

end ReactPlot
